import Mathlib

/-!
Verification development for the BYODT display client (src/main.rs,
src/models.rs). The orchestration core — the polling loop `web_calls`, the
rendering loop `run_display`, the early-wake channel, and the supervision
structure of `main` — is shallowly embedded below. External collaborators
(serde parsing, HTTP transport, the bitmap decoder and the display surface)
appear as oracle parameters, matching their role as opaque collaborators in
the source.
-/

namespace BYODT

/-! ## Data model (src/models.rs) -/

/-- Translation of `DisplayResponse` (models.rs lines 4-22). `status : u16`
and `refresh_rate : Option<u64>` are modelled over `Nat`. -/
structure DisplayResponse where
  status : Nat
  error : Option String
  image_url : Option String
  filename : Option String
  refresh_rate : Option Nat
  reset_firmware : Bool
  update_firmware : Option Bool
  firmware_url : Option String
  special_function : Option String
deriving DecidableEq

/-! ## Poller cycle (web_calls, main.rs lines 137-230)

One iteration of the `loop` in `web_calls`, after the sleep/early-wake wait.
The network, the JSON parser and the channel-send outcome are inputs supplied
by the environment of the cycle. -/

/-- Outcome of the status request `client.get(.../api/display).send()` plus
the body read `result.text()`: the send can fail (main.rs 173), the body read
can fail (the question-mark operator at main.rs 179), or a body string is
obtained together with the cloned HTTP status (main.rs 178). -/
inductive PollResponse where
  | transportErr
  | bodyReadErr
  | ok (httpStatus : Nat) (body : String)

/-- Outcome of the image fetch `client.get(image_url).send().await?.bytes().await?`
(main.rs 206): any error there propagates via the question-mark operator. -/
inductive ImageFetchResult where
  | err
  | ok (bytes : List Nat)

/-- Environment of one poll cycle: what the network returns, what serde's
`from_str` returns on a given body, what the image fetch returns for a given
URL, and whether the image-channel send succeeds (it fails only when the
receiver is gone, main.rs 208). -/
structure CycleEnv where
  response : PollResponse
  parse : String → Option DisplayResponse
  fetchImage : String → ImageFetchResult
  sendOk : Bool

/-- Log calls the cycle can make, in source order (main.rs 174, 182-183,
187, 194, 197, 209, 226). -/
inductive LogEvent where
  | errFailedGetResponse
  | errFailedParse (httpStatus : Nat) (body : String)
  | infoParsed
  | errApi (msg : String)
  | errApiNoMessage
  | errFailedSend
  | infoNoRefreshRate
deriving DecidableEq

/-- How the cycle ends: `next s` means the `loop` continues and the next wait
uses `sleep_time = s`; `fatal msg` means `web_calls` returns `Err(msg)` (or,
for `bodyReadErr` and a failed image fetch, the propagated transport error,
represented by a marker message). -/
inductive CycleOutcome where
  | next (sleepTime : Nat)
  | fatal (msg : String)
deriving DecidableEq

/-- Observable result of one cycle: the outcome, which URL (if any) an image
fetch was attempted on, which payload (if any) was delivered to the image
channel, and the log events emitted. -/
structure CycleResult where
  outcome : CycleOutcome
  fetchedUrl : Option String
  sentPayload : Option (List Nat)
  logs : List LogEvent
deriving DecidableEq

/-- One iteration of the `web_calls` loop body (main.rs 168-229), given the
current `sleep_time`. Follows the source control flow: transport failure
logs and continues (173-176); a body-read failure propagates fatally via the
question mark (179); a parse failure logs and continues (181-185); a parsed
response is logged (187); `status == 500` logs the error message or a generic
one and continues with `sleep_time` unchanged (191-202); otherwise the image
URL is required — absent is fatal (213-217) — and its bytes are fetched
(fatal on error, 206) and sent (fatal if the channel is closed, 207-211);
finally `sleep_time` is set from `refresh_rate`, defaulting to 600 (220-228). -/
def webCycle (env : CycleEnv) (sleep_time : Nat) : CycleResult :=
  match env.response with
  | .transportErr =>
      ⟨.next sleep_time, none, none, [.errFailedGetResponse]⟩
  | .bodyReadErr =>
      ⟨.fatal "body read failed", none, none, []⟩
  | .ok httpStatus body =>
      match env.parse body with
      | none =>
          ⟨.next sleep_time, none, none, [.errFailedParse httpStatus body]⟩
      | some resp =>
          if resp.status == 500 then
            ⟨.next sleep_time, none, none,
              [.infoParsed,
                match resp.error with
                | some m => .errApi m
                | none => .errApiNoMessage]⟩
          else
            match resp.image_url with
            | some url =>
                match env.fetchImage url with
                | .err => ⟨.fatal "image fetch failed", some url, none, [.infoParsed]⟩
                | .ok bytes =>
                    if env.sendOk then
                      match resp.refresh_rate with
                      | some r => ⟨.next r, some url, some bytes, [.infoParsed]⟩
                      | none =>
                          ⟨.next 600, some url, some bytes,
                            [.infoParsed, .infoNoRefreshRate]⟩
                    else
                      ⟨.fatal "Failed to send new image to display", some url, none,
                        [.infoParsed, .errFailedSend]⟩
            | none =>
                ⟨.fatal "An image_url was not returned from the api response",
                  none, none, [.infoParsed]⟩

/-- Initial value of the mutable `sleep_time` (main.rs 153). -/
def initialSleepTime : Nat := 600

/-! ## Renderer tick (run_display, main.rs lines 95-134)

The message-handling phase of one tick: a single non-blocking `try_recv` on
the FIFO image channel, and on a received payload a decode (`Bmp::from_slice`,
whose `Result` is unwrapped at main.rs 100 — a decode failure panics) followed
by a draw whose own result is discarded (main.rs 101). The decoder and the
draw operation are external collaborators and appear as parameters. -/

/-- Translation of the `Message` enum (main.rs 38-40). -/
inductive Message where
  | NewImage (bytes : List Nat)
deriving DecidableEq

/-- Semantics of `rx.try_recv()` on the FIFO channel contents: returns the
oldest queued message, if any, without blocking, together with the remaining
queue. -/
def tryRecv (q : List Message) : Option Message × List Message :=
  match q with
  | [] => (none, [])
  | m :: rest => (some m, rest)

/-- Result of the message-handling phase of one tick: either the loop
continues with an updated display and remaining queue, or the task panicked
(the `unwrap` at main.rs 100 on a failed bitmap decode). -/
inductive TickResult (D : Type) where
  | ok (display : D) (rest : List Message)
  | panicked
deriving DecidableEq

/-- The `rx.try_recv()` match at the top of the `run_display` loop
(main.rs 96-105): an empty channel is ignored (`Err(_) => {}`); a received
`NewImage` has its bytes decoded — `unwrap` panics on a decode failure — and
the decoded bitmap drawn onto the display. -/
def drainStep {D B : Type} (decode : List Nat → Option B) (draw : D → B → D)
    (display : D) (q : List Message) : TickResult D :=
  match tryRecv q with
  | (some (Message.NewImage bytes), rest) =>
      match decode bytes with
      | some bmp => TickResult.ok (draw display bmp) rest
      | none => TickResult.panicked
  | (none, rest) => TickResult.ok display rest

/-! ## Early-wake channel (main.rs line 65)

`mpsc::channel::<()>(1)`: a bounded tokio channel of capacity 1. The renderer
signals it with `send(()).await` (main.rs 121); a bounded-channel send
completes immediately when the queue is below capacity and otherwise suspends
the sender until a slot frees. The poller consumes with `recv()` inside its
wait (main.rs 160). -/

/-- Capacity of the early-wake channel (main.rs 65). -/
def bailChannelCapacity : Nat := 1

/-- One `send(()).await` attempt on the early-wake channel holding `pending`
queued wakes: the Bool says whether the send completed immediately (true) or
the sender suspended (false); the Nat is the queue length afterwards. -/
def bailSendStep (pending : Nat) : Bool × Nat :=
  if pending < bailChannelCapacity then (true, pending + 1) else (false, pending)

/-- The poller's `early_timeout_bail.recv()` (main.rs 160) consuming one
pending wake. -/
def bailRecvStep (pending : Nat) : Nat := pending - 1

/-! ## Supervision structure of main (main.rs lines 67-77)

`web_calls` is spawned as a detached task whose `Result` is discarded
(`let _ = web_calls(..).await` inside `tokio::spawn`, lines 67-69). The
`tokio::select!` in `main` (lines 71-77) races only `signal::ctrl_c()` and
`run_display(..)`; the poller task is not one of its branches. -/

/-- Completion events the running process can observe. -/
inductive MainEvent where
  | ctrlC
  | displayReturned
  | pollerReturned (isErr : Bool)
deriving DecidableEq

/-- Whether `main` terminates the process when the given event occurs:
the select arms are ctrl-c and the return of `run_display` (main.rs 71-77);
the spawned `web_calls` task finishing — with or without an error — is not
selected on and its result is discarded (main.rs 67-69). -/
def mainExitsOn : MainEvent → Bool
  | .ctrlC => true
  | .displayReturned => true
  | .pollerReturned _ => false

/-! ## Concrete oracles and environments used by witnesses -/

/-- Concrete decoder oracle: decoding fails exactly on the empty byte list. -/
def decodeEmptyFails : List Nat → Option (List Nat) :=
  fun bytes => if bytes = [] then none else some bytes

/-- Concrete draw oracle: the display (a `Nat`) records the length of the
bytes last drawn. -/
def drawLen : Nat → List Nat → Nat := fun _ bytes => bytes.length

/-- Concrete decoder oracle that always succeeds, returning the bytes. -/
def decodeSome : List Nat → Option (List Nat) := fun bytes => some bytes

/-- Concrete draw oracle: the display (a `List Nat`) holds the bytes last
drawn. -/
def drawReplace : List Nat → List Nat → List Nat := fun _ bytes => bytes

/-- Scenario-A style directive: success status, image URL present,
refresh rate 30. -/
def respSuccess : DisplayResponse :=
  { status := 0, error := none, image_url := some "http://x/a.bmp",
    filename := none, refresh_rate := some 30, reset_firmware := false,
    update_firmware := none, firmware_url := none, special_function := none }

/-- Directive with a nonzero, non-500 status and no refresh rate. -/
def resp404 : DisplayResponse :=
  { respSuccess with status := 404, refresh_rate := none }

/-- Scenario-B style directive: the documented server-error status with an
error message. -/
def respServerError : DisplayResponse :=
  { status := 500, error := some "maintenance", image_url := none,
    filename := none, refresh_rate := none, reset_firmware := false,
    update_firmware := none, firmware_url := none, special_function := none }

/-- Scenario-C style directive: success status but no image URL. -/
def respNoUrl : DisplayResponse := { respSuccess with image_url := none }

/-- Cycle environment in which the status request succeeds with HTTP 200,
the body parses to `d`, every image fetch yields bytes `[1, 2, 3]`, and the
channel send succeeds. -/
def envOf (d : DisplayResponse) : CycleEnv :=
  { response := .ok 200 "body", parse := fun _ => some d,
    fetchImage := fun _ => .ok [1, 2, 3], sendOk := true }

/-- Cycle environment whose status request fails in transport. -/
def envTransportErr : CycleEnv :=
  { response := .transportErr, parse := fun _ => none,
    fetchImage := fun _ => .err, sendOk := true }

/-- Cycle environment whose response body read fails. -/
def envBodyReadErr : CycleEnv := { envTransportErr with response := .bodyReadErr }

/-- Cycle environment whose body is obtained but fails to parse. -/
def envParseErr : CycleEnv :=
  { envTransportErr with response := .ok 200 "garbage" }

/-! ## Claim C1 — early-wake signalling -/

/-- Claim C1, counterexample: a force-refresh send issued while a wake is
already pending (one unit queued in the capacity-1 channel) does not complete
immediately — the sender suspends — contradicting the claim that the signal
operation returns immediately without blocking. -/
theorem c1_signal_blocks_when_pending_cex :
    ¬ ((bailSendStep 1).1 = true) := by decide

/-- Claim C1, amended: a force-refresh send on the early-wake channel
completes immediately exactly when no wake is pending, and the channel never
holds more than one pending wake (capacity 1); a send issued while a wake is
pending suspends the sender instead of returning immediately. -/
theorem c1_signal_immediate_iff_empty (pending : Nat)
    (hcap : pending ≤ bailChannelCapacity) :
    ((bailSendStep pending).1 = true ↔ pending = 0) ∧
    (bailSendStep pending).2 ≤ bailChannelCapacity := by
  have h : pending = 0 ∨ pending = 1 := by
    have hle : pending ≤ 1 := hcap
    omega
  rcases h with h | h <;> subst h <;> decide

/-- Claim C1, witness: the amended statement instantiated at one pending
wake. -/
theorem c1_signal_immediate_iff_empty_witness :
    ((bailSendStep 1).1 = true ↔ (1 : Nat) = 0) ∧
    (bailSendStep 1).2 ≤ bailChannelCapacity :=
  c1_signal_immediate_iff_empty 1 (by decide)

/-! ## Claim C2 — fatal poller error and shutdown -/

/-- Claim C2, counterexample: the spawned poller task returning with an error
does not terminate `main` — it is not a branch of the select and its result is
discarded — contradicting the claim that a fatal Poller error causes
coordinated termination of both loops and of the process. -/
theorem c2_poller_error_not_selected_cex :
    ¬ (mainExitsOn (MainEvent.pollerReturned true) = true) := by decide

/-- Claim C2, amended: a fatal Poller error terminates only the Poller task;
its result is discarded at the spawn site and `main` exits only on ctrl-c or
on the Renderer loop returning, so the Renderer keeps running and the process
does not shut down. -/
theorem c2_poller_error_ignored_by_main :
    mainExitsOn (MainEvent.pollerReturned true) = false ∧
    mainExitsOn (MainEvent.pollerReturned false) = false ∧
    mainExitsOn MainEvent.ctrlC = true ∧
    mainExitsOn MainEvent.displayReturned = true := by decide

/-! ## Claim C3 — bitmap decode failure -/

/-- Claim C3, counterexample: on a payload whose bytes fail to decode, the
tick does not skip the frame and continue with the previous display — it
panics (the `unwrap` at main.rs 100) — so the result is not
`TickResult.ok` with the display unchanged. -/
theorem c3_decode_failure_panics_cex :
    ¬ (drainStep decodeEmptyFails drawLen (7 : Nat) [Message.NewImage []] =
        TickResult.ok 7 []) := by decide

/-- Claim C3, amended: for every payload drained by the Renderer whose bytes
fail to decode as a bitmap, the Renderer panics (the decode result is
unwrapped), crashing the loop, rather than skipping the frame and
continuing. -/
theorem c3_decode_failure_panics {D B : Type} (decode : List Nat → Option B)
    (draw : D → B → D) (display : D) (bytes : List Nat) (rest : List Message)
    (hdec : decode bytes = none) :
    drainStep decode draw display (Message.NewImage bytes :: rest) =
      TickResult.panicked := by
  simp [drainStep, tryRecv, hdec]

/-- Claim C3, witness: a concrete undecodable payload makes the tick panic. -/
theorem c3_decode_failure_panics_witness :
    decodeEmptyFails [] = none ∧
    drainStep decodeEmptyFails drawLen (7 : Nat) [Message.NewImage []] =
      TickResult.panicked :=
  ⟨rfl, c3_decode_failure_panics decodeEmptyFails drawLen 7 [] [] rfl⟩

/-! ## Claim C4 — per-tick drain order -/

/-- Claim C4, counterexample: with two payloads queued at a tick, the tick
does not render the most recent one with the backlog discarded; it renders
the oldest and leaves the newer one queued. -/
theorem c4_tick_renders_oldest_cex :
    ¬ (drainStep decodeSome drawReplace ([] : List Nat)
        [Message.NewImage [1], Message.NewImage [2]] =
        TickResult.ok [2] []) := by decide

/-- Claim C4, amended: at each tick the Renderer drains at most one payload —
the oldest queued — renders it, and leaves the rest of the backlog queued in
order for subsequent ticks, so payloads are rendered across ticks in exactly
the order the Poller sent them. -/
theorem c4_tick_drains_oldest_keeps_backlog {D B : Type}
    (decode : List Nat → Option B) (draw : D → B → D) (display : D)
    (bytes : List Nat) (bmp : B) (rest : List Message)
    (hdec : decode bytes = some bmp) :
    drainStep decode draw display (Message.NewImage bytes :: rest) =
      TickResult.ok (draw display bmp) rest := by
  simp [drainStep, tryRecv, hdec]

/-- Claim C4, witness: with payloads `[1]` then `[2]` queued, the tick renders
`[1]` and keeps `[2]` queued. -/
theorem c4_tick_drains_oldest_keeps_backlog_witness :
    drainStep decodeSome drawReplace ([] : List Nat)
      [Message.NewImage [1], Message.NewImage [2]] =
      TickResult.ok [1] [Message.NewImage [2]] :=
  c4_tick_drains_oldest_keeps_backlog decodeSome drawReplace [] [1] [1]
    [Message.NewImage [2]] rfl

/-! ## Claim C5 — server-error directive skips the cycle -/

/-- Claim C5: for every parsed directive with status 500, the cycle logs the
error message if present (or the generic message if absent), continues to the
next cycle with `sleep_time` unchanged, attempts no image fetch, and sends
nothing on the image channel. -/
theorem c5_server_error_skips_cycle (env : CycleEnv) (s httpStatus : Nat)
    (body : String) (d : DisplayResponse)
    (hresp : env.response = .ok httpStatus body)
    (hparse : env.parse body = some d)
    (hstatus : d.status = 500) :
    webCycle env s =
      ⟨.next s, none, none,
        [.infoParsed,
          match d.error with
          | some m => .errApi m
          | none => .errApiNoMessage]⟩ := by
  simp [webCycle, hresp, hparse, hstatus]

/-- Claim C5, witness: the Scenario-B directive with message "maintenance". -/
theorem c5_server_error_skips_cycle_witness :
    webCycle (envOf respServerError) 600 =
      ⟨.next 600, none, none, [.infoParsed, .errApi "maintenance"]⟩ :=
  c5_server_error_skips_cycle (envOf respServerError) 600 200 "body"
    respServerError rfl rfl rfl

/-! ## Claim C6 — refresh-interval update -/

/-- Claim C6: `sleep_time` starts at the default 600, and a cycle that
completes successfully (non-500 status, image URL present, fetch and send
succeed) sets the next wait to the directive's `refresh_rate` when present
and resets it to 600 when absent. -/
theorem c6_refresh_interval_update (env : CycleEnv) (s httpStatus : Nat)
    (body url : String) (d : DisplayResponse) (bytes : List Nat)
    (hresp : env.response = .ok httpStatus body)
    (hparse : env.parse body = some d)
    (hstatus : d.status ≠ 500)
    (hurl : d.image_url = some url)
    (hfetch : env.fetchImage url = .ok bytes)
    (hsend : env.sendOk = true) :
    initialSleepTime = 600 ∧
    (webCycle env s).outcome = .next (d.refresh_rate.getD 600) := by
  refine ⟨rfl, ?_⟩
  cases hr : d.refresh_rate <;>
    simp [webCycle, hresp, hparse, hstatus, hurl, hfetch, hsend, hr]

/-- Claim C6, witness: the Scenario-A directive with refresh rate 30 yields
a next wait of 30 seconds. -/
theorem c6_refresh_interval_update_witness :
    initialSleepTime = 600 ∧
    (webCycle (envOf respSuccess) 600).outcome = .next 30 :=
  c6_refresh_interval_update (envOf respSuccess) 600 200 "body" "http://x/a.bmp"
    respSuccess [1, 2, 3] rfl rfl (by decide) rfl rfl rfl

/-! ## Claim C7 — missing image URL is fatal -/

/-- Claim C7: for every parsed directive with success status (non-500) but no
image URL, the cycle ends fatally — `web_calls` returns an error instead of
continuing to the next cycle. -/
theorem c7_missing_image_url_fatal (env : CycleEnv) (s httpStatus : Nat)
    (body : String) (d : DisplayResponse)
    (hresp : env.response = .ok httpStatus body)
    (hparse : env.parse body = some d)
    (hstatus : d.status ≠ 500)
    (hurl : d.image_url = none) :
    webCycle env s =
      ⟨.fatal "An image_url was not returned from the api response",
        none, none, [.infoParsed]⟩ := by
  simp [webCycle, hresp, hparse, hstatus, hurl]

/-- Claim C7, witness: the Scenario-C directive (status 0, no image URL) is
fatal. -/
theorem c7_missing_image_url_fatal_witness :
    webCycle (envOf respNoUrl) 600 =
      ⟨.fatal "An image_url was not returned from the api response",
        none, none, [.infoParsed]⟩ :=
  c7_missing_image_url_fatal (envOf respNoUrl) 600 200 "body" respNoUrl
    rfl rfl (by decide) rfl

/-! ## Claim C8 — the success predicate is status ≠ 500 -/

/-- Claim C8: every parsed directive whose status differs from 500 — whether
or not it is 0 — is treated as success: the cycle proceeds to the image-URL
branch, attempting a fetch of the announced URL when present and failing
fatally for its absence. -/
theorem c8_success_predicate_ne_500 (env : CycleEnv) (s httpStatus : Nat)
    (body : String) (d : DisplayResponse)
    (hresp : env.response = .ok httpStatus body)
    (hparse : env.parse body = some d)
    (hstatus : d.status ≠ 500) :
    (∀ url, d.image_url = some url → (webCycle env s).fetchedUrl = some url) ∧
    (d.image_url = none →
      (webCycle env s).outcome =
        .fatal "An image_url was not returned from the api response") := by
  refine ⟨?_, ?_⟩
  · intro url hurl
    cases hfetch : env.fetchImage url with
    | err => simp [webCycle, hresp, hparse, hstatus, hurl, hfetch]
    | ok bytes =>
        cases hsend : env.sendOk with
        | false => simp [webCycle, hresp, hparse, hstatus, hurl, hfetch, hsend]
        | true =>
            cases hr : d.refresh_rate <;>
              simp [webCycle, hresp, hparse, hstatus, hurl, hfetch, hsend, hr]
  · intro hurl
    simp [webCycle, hresp, hparse, hstatus, hurl]

/-- Claim C8, witness: a directive with status 404 (nonzero and not 500) is
treated as success — its announced URL is fetched. -/
theorem c8_success_predicate_ne_500_witness :
    (webCycle (envOf resp404) 600).fetchedUrl = some "http://x/a.bmp" :=
  (c8_success_predicate_ne_500 (envOf resp404) 600 200 "body" resp404
    rfl rfl (by decide)).1 "http://x/a.bmp" rfl

/-! ## Claim C9 — empty channel drain is non-blocking -/

/-- Claim C9: when the per-tick drain finds the image channel empty, it
returns at once with no message taken and the display untouched — the tick
proceeds with nothing drawn. -/
theorem c9_empty_channel_nonblocking {D B : Type} (decode : List Nat → Option B)
    (draw : D → B → D) (display : D) :
    drainStep decode draw display [] = TickResult.ok display [] := rfl

/-- Claim C9, witness: the empty-channel drain at a concrete display. -/
theorem c9_empty_channel_nonblocking_witness :
    drainStep decodeEmptyFails drawLen (7 : Nat) [] = TickResult.ok 7 [] :=
  c9_empty_channel_nonblocking decodeEmptyFails drawLen 7

/-! ## Claim C10 — body-read failure is fatal, unlike transport and parse failures -/

/-- Claim C10: a cycle whose response body read fails ends fatally (the error
propagates out of the loop), whereas a transport failure on the status request
and a body-parse failure each continue to the next cycle with `sleep_time`
unchanged. -/
theorem c10_body_read_fatal_vs_swallowed (env envT envP : CycleEnv)
    (s httpStatus : Nat) (body : String)
    (hbody : env.response = .bodyReadErr)
    (htrans : envT.response = .transportErr)
    (hok : envP.response = .ok httpStatus body)
    (hparse : envP.parse body = none) :
    (∃ m, (webCycle env s).outcome = .fatal m) ∧
    (webCycle envT s).outcome = .next s ∧
    (webCycle envP s).outcome = .next s := by
  refine ⟨⟨"body read failed", ?_⟩, ?_, ?_⟩ <;>
    simp [webCycle, hbody, htrans, hok, hparse]

/-- Claim C10, witness: concrete environments for the three failure modes. -/
theorem c10_body_read_fatal_vs_swallowed_witness :
    (∃ m, (webCycle envBodyReadErr 600).outcome = .fatal m) ∧
    (webCycle envTransportErr 600).outcome = .next 600 ∧
    (webCycle envParseErr 600).outcome = .next 600 :=
  c10_body_read_fatal_vs_swallowed envBodyReadErr envTransportErr envParseErr
    600 200 "garbage" rfl rfl rfl rfl

end BYODT
